import Mathlib

/- Shallow embedding of the BetweenUS Slack conflict-resolution bot:
   src/agent.py, src/app.py, src/tools/slack_tools.py.
   Machine strings are Lean Strings (character lists where character-level
   operations are needed); remote collaborators (Slack Web API, the Groq
   model endpoint) are oracle parameters; Python exceptions are modelled
   with Except / explicit outcome types. -/

namespace BtwUS

/-! ## Python string helpers (str.lower, str.strip, substring containment) -/

/-- Python str.lower, character-wise (ASCII case folding suffices here). -/
def pyLower (s : List Char) : List Char := s.map Char.toLower

/-- Whitespace recognised by Python str.strip. -/
def isSpaceChar (c : Char) : Bool :=
  c = ' ' || c = '\t' || c = '\n' || c = '\r'

/-- Python str.strip: drop leading and trailing whitespace. -/
def pyStrip (s : List Char) : List Char :=
  ((s.dropWhile isSpaceChar).reverse.dropWhile isSpaceChar).reverse

/-- Python substring containment: needle in hay. -/
def hasSub (needle : List Char) : List Char → Bool
  | [] => needle.isEmpty
  | c :: rest => needle.isPrefixOf (c :: rest) || hasSub needle rest

/-! ## call_tools (src/agent.py lines 158-187; identical copy in src/app.py lines 133-162)

A ToolCall is the dict LangChain puts in an assistant message's tool_calls
list; a ToolMessage is the LangChain ToolMessage the loop appends.  A Tool
carries its registered name and its behaviour on the (opaque) argument
payload: Except.error models the invocation raising an exception whose
string rendering is the payload. -/

structure ToolCall where
  name : String
  args : String
  id : String
deriving Repr, DecidableEq

structure ToolMessage where
  content : String
  tool_call_id : String
  name : String
deriving Repr, DecidableEq

structure Tool where
  name : String
  run : String → Except String String

/-- The dict comprehension `tool_executor = {tool.name: tool for tool in tools}`
followed by `tool_name in tool_executor` lookup: later duplicates overwrite
earlier ones, as in a Python dict build. -/
def toolLookup (registry : List Tool) (n : String) : Option Tool :=
  registry.foldl (fun acc t => if t.name = n then some t else acc) none

/-- One iteration of the tool loop body for a registered tool: invoke, catch,
and build the ToolMessage (lines 172-185 of src/agent.py). -/
def runTool (t : Tool) (tc : ToolCall) : ToolMessage :=
  match t.run tc.args with
  | Except.ok r => ⟨r, tc.id, tc.name⟩
  | Except.error e => ⟨"Error executing " ++ tc.name ++ ": " ++ e, tc.id, tc.name⟩

/-- The loop of call_tools over last_message.tool_calls.  Note the source has
no else-branch on `if tool_name in tool_executor:`: a call whose name is not
registered appends nothing to tool_outputs. -/
def call_tools (registry : List Tool) : List ToolCall → List ToolMessage
  | [] => []
  | tc :: rest =>
    match toolLookup registry tc.name with
    | some t => runTool t tc :: call_tools registry rest
    | none => call_tools registry rest

/-- A stand-in registered tool with the name of a real registry entry. -/
def demoTool : Tool := ⟨"get_user_info", fun _ => Except.ok "Dana"⟩

theorem runTool_tool_call_id (t : Tool) (tc : ToolCall) :
    (runTool t tc).tool_call_id = tc.id := by
  unfold runTool
  cases t.run tc.args <;> rfl

theorem runTool_name (t : Tool) (tc : ToolCall) :
    (runTool t tc).name = tc.name := by
  unfold runTool
  cases t.run tc.args <;> rfl

/-- Claim C1 counterexample: a single requested tool call whose name is not in
the registry yields zero ToolMessages, not one — the call is left without a
ToolResult. -/
theorem C1_counterexample :
    ¬ (call_tools [demoTool] [⟨"made_up_tool", "\x7b\x7d", "call_1"⟩]).length = 1 := by
  decide

/-- Claim C1 (amended): one execution of call_tools appends exactly one
ToolMessage per requested tool call whose name is registered — matched by
call identifier and tool name, in request order — while a call whose name is
not in the registry is silently skipped and gets no ToolResult. -/
theorem C1_call_tools_resolves_registered_calls (registry : List Tool) (calls : List ToolCall) :
    (call_tools registry calls).map (fun m => (m.tool_call_id, m.name))
      = (calls.filter (fun tc => (toolLookup registry tc.name).isSome)).map
          (fun tc => (tc.id, tc.name)) := by
  induction calls with
  | nil => rfl
  | cons tc rest ih =>
    cases h : toolLookup registry tc.name with
    | none =>
      simp [call_tools, h, ih, List.filter]
    | some t =>
      simp [call_tools, h, ih, List.filter, runTool_tool_call_id, runTool_name]

/-- Claim C2 counterexample: a call to the unregistered name phantom_tool
produces no ToolMessage at all, in particular no error-labelled ToolResult
containing that name. -/
theorem C2_counterexample :
    call_tools [demoTool] [⟨"phantom_tool", "\x7b\x7d", "call_9"⟩] = [] := by
  decide

/-- Claim C2 (amended): when a registered tool raises, call_tools appends a
ToolMessage whose content is the failure description prefixed by
"Error executing name:", instead of propagating the exception; a call whose
name is not registered yields no ToolResult (it is silently skipped). -/
theorem C2_call_tools_error_capture (registry : List Tool) :
    (∀ tc t e rest, toolLookup registry tc.name = some t →
        t.run tc.args = Except.error e →
        call_tools registry (tc :: rest)
          = ⟨"Error executing " ++ tc.name ++ ": " ++ e, tc.id, tc.name⟩
              :: call_tools registry rest)
  ∧ (∀ tc rest, toolLookup registry tc.name = none →
        call_tools registry (tc :: rest) = call_tools registry rest) := by
  constructor
  · intro tc t e rest hlook hrun
    simp [call_tools, hlook, runTool, hrun]
  · intro tc rest hlook
    simp [call_tools, hlook]

/-- A registered tool whose invocation always raises "boom". -/
def raisingTool : Tool := ⟨"get_channel_history", fun _ => Except.error "boom"⟩

theorem C2_witness :
    call_tools [raisingTool] [⟨"get_channel_history", "\x7b\x7d", "call_2"⟩]
        = [⟨"Error executing get_channel_history: boom", "call_2", "get_channel_history"⟩]
      ∧ call_tools [raisingTool] [⟨"phantom_tool", "\x7b\x7d", "call_3"⟩] = [] := by
  constructor
  · exact (C2_call_tools_error_capture [raisingTool]).1
      ⟨"get_channel_history", "\x7b\x7d", "call_2"⟩ raisingTool "boom" [] rfl rfl
  · exact (C2_call_tools_error_capture [raisingTool]).2
      ⟨"phantom_tool", "\x7b\x7d", "call_3"⟩ [] rfl

/-! ## Orchestrator loop and host handler
(src/app.py lines 133-274; the graph wiring agent ↔ tools with conditional
edge should_continue, compiled and invoked with a recursion_limit)

The model endpoint is an oracle `model : List Msg → String × List ToolCall`
returning the reply content and its requested tool calls.

Modelled from the spec: the graph engine itself (the langgraph library) is
not part of this repository; per the spec (§4.1) the RESPOND↔TOOLS loop is
bounded by an iteration budget configured by the host — src/app.py passes
recursion_limit 10 — and exceeding the budget aborts the run with an
exception, which handle_app_mention_events catches, surfacing the generic
could-not-complete reply instead of looping.  Each node execution consumes
one unit of budget. -/

inductive Msg
  | human (content : String)
  | ai (content : String) (tool_calls : List ToolCall)
  | toolResult (m : ToolMessage)
deriving Repr, DecidableEq

inductive RunOutcome
  | finished (msgs : List Msg)
  | limitExceeded
deriving Repr, DecidableEq

/-- The compiled graph of src/app.py (entry point agent, conditional edge
should_continue to tools or END, edge tools → agent), executed under a
node-execution budget. -/
def runGraph (model : List Msg → String × List ToolCall) (registry : List Tool) :
    Nat → List Msg → RunOutcome
  | 0, _ => RunOutcome.limitExceeded
  | budget + 1, msgs =>
    let step := model msgs
    let msgs2 := msgs ++ [Msg.ai step.1 step.2]
    match step.2 with
    | [] => RunOutcome.finished msgs2
    | _ :: _ =>
      match budget with
      | 0 => RunOutcome.limitExceeded
      | b + 1 => runGraph model registry b (msgs2 ++ (call_tools registry step.2).map Msg.toolResult)

/-- Final-response extraction of src/app.py lines 255-262: scanning the
message list from the end, the first AIMessage with an empty tool_calls list
supplies the reply (the `not hasattr` branch never fires, AIMessage always
has the attribute). -/
def lastFinalAi : List Msg → Option String
  | [] => none
  | msg :: rest =>
    match lastFinalAi rest with
    | some r => some r
    | none =>
      match msg with
      | Msg.ai c [] => some c
      | _ => none

/-- The reply posted when the agent invocation raises (src/app.py line 273). -/
def errorReply : String :=
  "I encountered an issue while processing your message. Let me try to help you find a solution anyway. What specific conflict or challenge are you facing?"

/-- The reply posted when no final AI message is found or its content is
falsy (src/app.py line 266). -/
def fallbackReply : String :=
  "I\x27m here to help with any conflicts or discussions. How can I assist you in finding common ground?"

/-- handle_app_mention_events from the invoke call on (src/app.py lines
239-274); the inbound-text cleaning (bot-mention stripping and context
annotation, lines 220-229) is elided — cleanMessage is the already cleaned
text.  A limit-exceeded abort raises out of invoke and is caught by the
surrounding except, which posts errorReply. -/
def handle_app_mention (model : List Msg → String × List ToolCall) (registry : List Tool)
    (recursionLimit : Nat) (cleanMessage : String) : String :=
  match runGraph model registry recursionLimit [Msg.human cleanMessage] with
  | RunOutcome.limitExceeded => errorReply
  | RunOutcome.finished msgs =>
    match lastFinalAi msgs with
    | some r => if r = "" then fallbackReply else r
    | none => fallbackReply

theorem runGraph_always_tools (model : List Msg → String × List ToolCall)
    (registry : List Tool) (halways : ∀ h, (model h).2 ≠ []) :
    ∀ limit msgs, runGraph model registry limit msgs = RunOutcome.limitExceeded := by
  intro limit
  induction limit using Nat.strong_induction_on with
  | _ n ih =>
    intro msgs
    match n with
    | 0 => rfl
    | budget + 1 =>
      have hne := halways msgs
      unfold runGraph
      cases hmc : (model msgs).2 with
      | nil => exact absurd hmc hne
      | cons tc tcs =>
        simp only [hmc]
        match budget with
        | 0 => rfl
        | b + 1 => exact ih b (by omega) _

/-- Claim C3: the RESPOND↔TOOLS loop is bounded by the host-configured
iteration budget; for every budget and every model behaviour that would loop
forever (every reply requests tools), the run terminates with
limit-exceeded and the handler surfaces the could-not-complete reply
instead of looping indefinitely. -/
theorem C3_iteration_budget (model : List Msg → String × List ToolCall)
    (registry : List Tool) (limit : Nat) (msg : String)
    (halways : ∀ h, (model h).2 ≠ []) :
    runGraph model registry limit [Msg.human msg] = RunOutcome.limitExceeded
      ∧ handle_app_mention model registry limit msg = errorReply := by
  have h := runGraph_always_tools model registry halways limit [Msg.human msg]
  refine ⟨h, ?_⟩
  unfold handle_app_mention
  rw [h]

/-- A model oracle that requests a tool call on every invocation. -/
def loopingModel : List Msg → String × List ToolCall :=
  fun _ => ("let me look that up", [⟨"get_user_info", "\x7b\x7d", "c1"⟩])

theorem C3_witness :
    runGraph loopingModel [demoTool] 10 [Msg.human "hello"] = RunOutcome.limitExceeded
      ∧ handle_app_mention loopingModel [demoTool] 10 "hello" = errorReply :=
  C3_iteration_budget loopingModel [demoTool] 10 "hello"
    (fun _ => by simp [loopingModel])

/-! ## classifier_node (src/agent.py lines 97-156)

The classifier model call is an oracle outcome: ok with the raw reply
content, or failure with the exception description.  json.loads is embedded
for the fragment the classifier consumes — a flat JSON object mapping string
keys to string values (no escape sequences); anything else is a parse
failure, as it is for the real classifier contract. -/

def lbrace : Char := Char.ofNat 123

def rbrace : Char := Char.ofNat 125

def backtickChar : Char := Char.ofNat 96

def fenceChars : List Char := [backtickChar, backtickChar, backtickChar]

def fenceJsonChars : List Char := fenceChars ++ ['j', 's', 'o', 'n']

def skipSpaces (l : List Char) : List Char := l.dropWhile isSpaceChar

/-- Characters before the first occurrence of sep (Python split(sep)[0]). -/
def takeUntilSub (sep : List Char) : List Char → List Char
  | [] => []
  | c :: rest => if sep.isPrefixOf (c :: rest) then [] else c :: takeUntilSub sep rest

/-- The markdown-fence stripping of src/agent.py lines 135-138, applied to
the already stripped reply text. -/
def stripFencedBlock (t : List Char) : List Char :=
  if fenceJsonChars.isPrefixOf t then pyStrip (takeUntilSub fenceChars (t.drop 7))
  else if fenceChars.isPrefixOf t then pyStrip (takeUntilSub fenceChars (t.drop 3))
  else t

/-- Parse a double-quoted JSON string body (no escapes), returning the
content and the remaining input. -/
def parseQuotedAux : List Char → List Char → Option (String × List Char)
  | [], _ => none
  | c :: rest, acc =>
    if c = '"' then some (String.mk acc.reverse, rest)
    else parseQuotedAux rest (c :: acc)

def parseQuoted : List Char → Option (String × List Char)
  | [] => none
  | c :: rest => if c = '"' then parseQuotedAux rest [] else none

/-- Parse the comma-separated key : value pairs of a flat string object up
to and including the closing brace; fuel-bounded recursion. -/
def parsePairs : Nat → List Char → Option (List (String × String) × List Char)
  | 0, _ => none
  | fuel + 1, l =>
    match parseQuoted (skipSpaces l) with
    | none => none
    | some (k, rest1) =>
      match skipSpaces rest1 with
      | [] => none
      | c :: rest2 =>
        if c = ':' then
          match parseQuoted (skipSpaces rest2) with
          | none => none
          | some (v, rest3) =>
            match skipSpaces rest3 with
            | [] => none
            | d :: rest4 =>
              if d = ',' then
                match parsePairs fuel rest4 with
                | some (ps, rest5) => some ((k, v) :: ps, rest5)
                | none => none
              else if d = rbrace then some ([(k, v)], rest4)
              else none
        else none

/-- json.loads restricted to flat string-to-string objects; any other input
is a parse failure (raising json.JSONDecodeError in the source). -/
def json_loads (s : String) : Option (List (String × String)) :=
  match skipSpaces s.toList with
  | [] => none
  | c :: rest =>
    if c = lbrace then
      match skipSpaces rest with
      | [] => none
      | d :: rest2 =>
        if d = rbrace then
          if (skipSpaces rest2).isEmpty then some [] else none
        else
          match parsePairs (rest.length + 1) (skipSpaces rest) with
          | some (ps, rest3) => if (skipSpaces rest3).isEmpty then some ps else none
          | none => none
    else none

/-- Python dict .get with a default; duplicate keys resolve to the last
occurrence, as in a dict built from parsed pairs. -/
def jget (ps : List (String × String)) (k d : String) : String :=
  (ps.foldl (fun acc p => if p.1 = k then some p.2 else acc) none).getD d

inductive ModelOutcome
  | ok (content : String)
  | failure (err : String)
deriving Repr, DecidableEq

structure ClassifierResult where
  prompt_type : String
  classification_reasoning : String
deriving Repr, DecidableEq

/-- Stand-in for the str(e) rendering of the json.JSONDecodeError raised on
unparseable classifier output (the exact CPython message text is abstracted;
only its presence in the rationale matters). -/
def jsonFailureText : String := "json.JSONDecodeError"

/-- First HumanMessage content in the state's message list (src/agent.py
lines 112-116). -/
def firstHumanContent : List Msg → Option String
  | [] => none
  | Msg.human c :: _ => some c
  | _ :: rest => firstHumanContent rest

/-- classifier_node (src/agent.py lines 97-156).  The module globals
USE_CLASSIFICATION and CURRENT_PROMPT_NAME are passed explicitly; the
classifier LLM call is the outcome oracle. -/
def classifier_node (use_classification : Bool) (current_prompt_name : String)
    (msgs : List Msg) (outcome : ModelOutcome) : ClassifierResult :=
  if use_classification = false then
    ⟨current_prompt_name, "Classification disabled, using fixed prompt"⟩
  else
    match firstHumanContent msgs with
    | none => ⟨"conflict_analyst_prompt", "No user message found, using default"⟩
    | some u =>
      if u = "" then ⟨"conflict_analyst_prompt", "No user message found, using default"⟩
      else
        match outcome with
        | ModelOutcome.failure e =>
          ⟨"prompt1", "Classification failed: " ++ e ++ ", defaulting to prompt1"⟩
        | ModelOutcome.ok raw =>
          let txt := stripFencedBlock (pyStrip raw.toList)
          match json_loads (String.mk txt) with
          | none =>
            ⟨"prompt1", "Classification failed: " ++ jsonFailureText ++ ", defaulting to prompt1"⟩
          | some obj =>
            ⟨String.mk (pyLower (jget obj "classification" "PROMPT1").toList),
             jget obj "reasoning" "No reasoning provided"⟩

/-- The closed set of known prompt labels: the four style tags the state
field documents (src/agent.py line 58) plus the default label. -/
def knownLabels : List String :=
  ["prompt1", "prompt2", "prompt3", "prompt4", "conflict_analyst_prompt"]

/-- Claim C4 counterexample: a well-formed JSON reply whose classification
field is an unknown tag passes straight through (lowercased, unvalidated),
so the returned label is not in the closed set of known labels. -/
theorem C4_counterexample :
    (classifier_node true "conflict_analyst_prompt" [Msg.human "my teammate and I disagree"]
        (ModelOutcome.ok "\x7b\"classification\": \"BANANA\", \"reasoning\": \"t\"\x7d")).prompt_type
      ∉ knownLabels := by
  decide

/-- Claim C4 (amended): with classification enabled and a non-empty first
user message, an unparseable model reply or a failed model call makes
classifier_node return the fallback label prompt1 — a member of the closed
label set — with a rationale naming the failure, and no exception escapes
(the embedding is total); but a successfully parsed reply's label is passed
through lowercased without validation and may lie outside the closed set. -/
theorem C4_classifier_fallback (current_prompt_name : String) (msgs : List Msg) (u : String)
    (outcome : ModelOutcome)
    (hu : firstHumanContent msgs = some u) (hne : ¬ u = "")
    (hbad : (∃ e, outcome = ModelOutcome.failure e)
      ∨ (∃ raw, outcome = ModelOutcome.ok raw
          ∧ json_loads (String.mk (stripFencedBlock (pyStrip raw.toList))) = none)) :
    (classifier_node true current_prompt_name msgs outcome).prompt_type = "prompt1"
      ∧ (classifier_node true current_prompt_name msgs outcome).prompt_type ∈ knownLabels
      ∧ "Classification failed".toList
          <+: (classifier_node true current_prompt_name msgs outcome).classification_reasoning.toList := by
  have hres : ∃ e, classifier_node true current_prompt_name msgs outcome
      = ⟨"prompt1", "Classification failed: " ++ e ++ ", defaulting to prompt1"⟩ := by
    rcases hbad with ⟨e, he⟩ | ⟨raw, hraw, hparse⟩
    · exact ⟨e, by simp [classifier_node, hu, hne, he]⟩
    · refine ⟨jsonFailureText, ?_⟩
      simp only [String.toList] at hparse
      simp [classifier_node, hu, hne, hraw, String.toList, hparse]
  obtain ⟨e, he⟩ := hres
  rw [he]
  refine ⟨rfl, by simp [knownLabels], ?_⟩
  have h1 : "Classification failed".toList <+: "Classification failed: ".toList := by decide
  have h2 : "Classification failed: ".toList
      <+: ("Classification failed: " ++ e ++ ", defaulting to prompt1").toList := by
    simp only [String.toList, String.data_append]
    exact List.prefix_append _ _
  exact h1.trans h2

theorem C4_witness :
    (classifier_node true "conflict_analyst_prompt" [Msg.human "please classify this"]
        (ModelOutcome.ok "not-json")).prompt_type = "prompt1"
      ∧ (classifier_node true "conflict_analyst_prompt" [Msg.human "please classify this"]
          (ModelOutcome.ok "not-json")).prompt_type ∈ knownLabels
      ∧ "Classification failed".toList
          <+: (classifier_node true "conflict_analyst_prompt" [Msg.human "please classify this"]
            (ModelOutcome.ok "not-json")).classification_reasoning.toList :=
  C4_classifier_fallback "conflict_analyst_prompt" [Msg.human "please classify this"]
    "please classify this" (ModelOutcome.ok "not-json") rfl (by decide)
    (Or.inr ⟨"not-json", rfl, by decide⟩)

/-! ## Transcript aggregation (src/tools/slack_tools.py lines 222-301)

A Slack message is modelled by its sort key (the numeric value of its ts
string, as a natural-number key), text, subtype, user and bot_id fields.
The paged remote history is an oracle: the list of successive
conversations_history responses, each either a page (message list plus
next_cursor) or a SlackApiError (rate-limited 429, or other). -/

structure SlackMsg where
  ts : Nat
  text : String
  subtype : Option String
  user : Option String
  bot_id : Option String
deriving Repr, DecidableEq

inductive PageResult
  | page (msgs : List SlackMsg) (next_cursor : Option String)
  | rateLimited (retryAfter : Nat)
  | apiError (err : String)
deriving Repr

inductive FetchOutcome
  | ok (msgs : List SlackMsg)
  | raised (exn : String)
deriving Repr, DecidableEq

/-- The pagination loop of _iter_channel_messages (lines 226-248).  On a 429
the source runs `delay = int(e.response.headers.get("Retry-After", "2"))`
then `time.sleep(delay)` — but the module never imports time (lines 1-7), so
evaluating time.sleep raises NameError, which is not a SlackApiError and
propagates out of the function instead of backing off and retrying.  Any
other SlackApiError is re-raised.  An empty next_cursor (falsy) ends the
loop; exhausting the response oracle models the final page. -/
def iterPages (max_messages : Nat) : List PageResult → List SlackMsg → FetchOutcome
  | [], acc => FetchOutcome.ok acc
  | p :: rest, acc =>
    match p with
    | PageResult.rateLimited _ => FetchOutcome.raised "NameError: name time is not defined"
    | PageResult.apiError e => FetchOutcome.raised ("SlackApiError: " ++ e)
    | PageResult.page msgs cursor =>
      let acc2 := acc ++ msgs
      if max_messages ≤ acc2.length then FetchOutcome.ok acc2
      else if cursor.getD "" = "" then FetchOutcome.ok acc2
      else iterPages max_messages rest acc2

instance : DecidableRel (fun a b : SlackMsg => a.ts ≤ b.ts) :=
  fun a b => Nat.decLe a.ts b.ts

instance : IsTotal SlackMsg (fun a b => a.ts ≤ b.ts) :=
  ⟨fun a b => Nat.le_total a.ts b.ts⟩

instance : IsTrans SlackMsg (fun a b => a.ts ≤ b.ts) :=
  ⟨fun _ _ _ h1 h2 => Nat.le_trans h1 h2⟩

/-- The Python stable sort `messages.sort(key=lambda m: float(m.get("ts", "0")), reverse=False)`
(line 250), as a sort by the ts key. -/
def sortByTs (l : List SlackMsg) : List SlackMsg :=
  List.insertionSort (fun a b => a.ts ≤ b.ts) l

/-- _iter_channel_messages (lines 222-251): paginate, sort chronologically,
truncate to the cap.  channel_id and oldest_ts only shape the remote
responses, which the page oracle already represents. -/
def _iter_channel_messages (pages : List PageResult) (max_messages : Nat) : FetchOutcome :=
  match iterPages max_messages pages [] with
  | FetchOutcome.raised e => FetchOutcome.raised e
  | FetchOutcome.ok msgs => FetchOutcome.ok ((sortByTs msgs).take max_messages)

/-- The uid selection `m.get("user") or m.get("bot_id")` (line 294), with
Python falsiness of empty strings. -/
def uidOf (m : SlackMsg) : Option String :=
  match m.user with
  | some u => if u = "" then m.bot_id else some u
  | none => m.bot_id

/-- The per-message filter of summarize_channel_history lines 286-296: skip
messages with a truthy subtype, skip messages whose stripped text is empty,
and under a truthy user filter keep only that user's messages. -/
def keepMsg (user_id : Option String) (m : SlackMsg) : Bool :=
  (match m.subtype with
   | none => true
   | some s => s = "") &&
  !(pyStrip m.text.toList).isEmpty &&
  (match user_id with
   | none => true
   | some u => if u = "" then true else uidOf m == some u)

def filterEligible (user_id : Option String) (msgs : List SlackMsg) : List SlackMsg :=
  msgs.filter (keepMsg user_id)

/-- The Transcript Aggregator: pagination with cap and chronological sort
(_iter_channel_messages) followed by the eligibility filter of
summarize_channel_history; none when the fetch raised. -/
def aggregateTranscript (pages : List PageResult) (max_messages : Nat)
    (user_id : Option String) : Option (List SlackMsg) :=
  match _iter_channel_messages pages max_messages with
  | FetchOutcome.raised _ => none
  | FetchOutcome.ok msgs => some (filterEligible user_id msgs)

def pageMsgs : PageResult → List SlackMsg
  | PageResult.page msgs _ => msgs
  | _ => []

/-- All messages the paged history makes available, in page order. -/
def availableMsgs (pages : List PageResult) : List SlackMsg :=
  (pages.map pageMsgs).flatten

/-- Claim C5: the claim is right and the code is wrong — a rate-limited page
fetch is meant to back off for the Retry-After duration and retry, but
time is never imported in src/tools/slack_tools.py, so the handler raises
NameError and the call fails instead of retrying. -/
theorem C5_rate_limit_raises :
    _iter_channel_messages [PageResult.rateLimited 2] 800
      = FetchOutcome.raised "NameError: name time is not defined" := rfl

theorem iterPages_ok_sublist (cap : Nat) :
    ∀ (pages : List PageResult) (acc out : List SlackMsg),
      iterPages cap pages acc = FetchOutcome.ok out →
      ∃ t, out = acc ++ t ∧ t.Sublist (availableMsgs pages) := by
  intro pages
  induction pages with
  | nil =>
    intro acc out h
    refine ⟨[], ?_, List.Sublist.refl _⟩
    simpa [iterPages] using (FetchOutcome.ok.inj h).symm
  | cons p rest ih =>
    intro acc out h
    cases p with
    | rateLimited d => exact absurd h (by simp [iterPages])
    | apiError e => exact absurd h (by simp [iterPages])
    | page msgs cursor =>
      have havail : availableMsgs (PageResult.page msgs cursor :: rest)
          = msgs ++ availableMsgs rest := by
        simp [availableMsgs, pageMsgs]
      simp only [iterPages] at h
      by_cases hcap : cap ≤ (acc ++ msgs).length
      · rw [if_pos hcap] at h
        refine ⟨msgs, (FetchOutcome.ok.inj h).symm, ?_⟩
        rw [havail]
        exact List.sublist_append_left msgs _
      · rw [if_neg hcap] at h
        by_cases hc : cursor.getD "" = ""
        · rw [if_pos hc] at h
          refine ⟨msgs, (FetchOutcome.ok.inj h).symm, ?_⟩
          rw [havail]
          exact List.sublist_append_left msgs _
        · rw [if_neg hc] at h
          obtain ⟨t2, ht2, hsub⟩ := ih (acc ++ msgs) out h
          refine ⟨msgs ++ t2, by rw [ht2, List.append_assoc], ?_⟩
          rw [havail]
          exact List.Sublist.append_left hsub msgs

theorem keepMsg_subtype_text {uid : Option String} {m : SlackMsg}
    (h : keepMsg uid m = true) :
    (m.subtype = none ∨ m.subtype = some "") ∧ m.text ≠ "" := by
  unfold keepMsg at h
  simp only [Bool.and_eq_true] at h
  obtain ⟨⟨hsub, htext⟩, -⟩ := h
  constructor
  · revert hsub
    cases hst : m.subtype with
    | none => intro _; exact Or.inl rfl
    | some s =>
      intro hsub
      simp only [decide_eq_true_eq] at hsub
      exact Or.inr (by rw [hsub])
  · intro he
    rw [he] at htext
    simp [pyStrip] at htext

/-- Claim C6: for every paged channel history (with the pairwise-distinct
timestamps Slack guarantees per channel), the aggregated transcript has at
most min(available, cap) messages, contains no message with a non-empty
subtype and none with empty text, and is strictly increasing by
timestamp (chronological, oldest first). -/
theorem C6_aggregator (pages : List PageResult) (cap : Nat) (uid : Option String)
    (res : List SlackMsg)
    (hres : aggregateTranscript pages cap uid = some res)
    (hdist : (availableMsgs pages).Pairwise (fun a b => a.ts ≠ b.ts)) :
    res.length ≤ min (availableMsgs pages).length cap
      ∧ (∀ m ∈ res, (m.subtype = none ∨ m.subtype = some "") ∧ m.text ≠ "")
      ∧ res.Pairwise (fun a b => a.ts < b.ts) := by
  unfold aggregateTranscript _iter_channel_messages at hres
  cases hraw : iterPages cap pages [] with
  | raised e => rw [hraw] at hres; exact absurd hres (by simp)
  | ok raw =>
    rw [hraw] at hres
    simp only [Option.some.injEq] at hres
    obtain ⟨t, ht, hsubt⟩ := iterPages_ok_sublist cap pages [] raw hraw
    have hsubraw : raw.Sublist (availableMsgs pages) := by
      rw [ht]
      simpa using hsubt
    have hperm : (sortByTs raw).Perm raw := List.perm_insertionSort _ raw
    have hressub1 : res.Sublist ((sortByTs raw).take cap) := by
      rw [← hres]
      exact List.filter_sublist _
    have hressub : res.Sublist (sortByTs raw) :=
      hressub1.trans (List.take_sublist cap (sortByTs raw))
    refine ⟨?_, ?_, ?_⟩
    · have h1 : res.length ≤ ((sortByTs raw).take cap).length := hressub1.length_le
      have h2 : ((sortByTs raw).take cap).length = min cap (sortByTs raw).length :=
        List.length_take cap (sortByTs raw)
      have h3 : (sortByTs raw).length = raw.length := hperm.length_eq
      have h4 : raw.length ≤ (availableMsgs pages).length := hsubraw.length_le
      omega
    · intro m hm
      have : keepMsg uid m = true := by
        rw [← hres] at hm
        exact List.of_mem_filter hm
      exact keepMsg_subtype_text this
    · have hsorted : (sortByTs raw).Pairwise (fun a b => a.ts ≤ b.ts) := by
        have hs := List.sorted_insertionSort (fun a b : SlackMsg => a.ts ≤ b.ts) raw
        simpa [sortByTs, List.Sorted] using hs
      have hdt : raw.Pairwise (fun a b => a.ts ≠ b.ts) := hdist.sublist hsubraw
      have hds : (sortByTs raw).Pairwise (fun a b => a.ts ≠ b.ts) :=
        hdt.perm hperm.symm (fun hxy => hxy.symm)
      have hlt : (sortByTs raw).Pairwise (fun a b => a.ts < b.ts) :=
        List.Pairwise.imp₂ (fun _ _ hle hne => Nat.lt_of_le_of_ne hle hne) hsorted hds
      exact hlt.sublist hressub

def c6Pages : List PageResult :=
  [PageResult.page
     [⟨3, "hello", none, some "U1", none⟩, ⟨1, "yo", none, some "U2", none⟩]
     (some "cur1"),
   PageResult.page
     [⟨2, "  ", none, some "U3", none⟩,
      ⟨5, "joined", some "channel_join", some "U4", none⟩,
      ⟨4, "ok then", none, some "U1", none⟩]
     none]

def c6Result : List SlackMsg :=
  [⟨1, "yo", none, some "U2", none⟩, ⟨3, "hello", none, some "U1", none⟩,
   ⟨4, "ok then", none, some "U1", none⟩]

theorem C6_witness :
    c6Result.length ≤ min (availableMsgs c6Pages).length 800
      ∧ (∀ m ∈ c6Result, (m.subtype = none ∨ m.subtype = some "") ∧ m.text ≠ "")
      ∧ c6Result.Pairwise (fun a b => a.ts < b.ts) :=
  C6_aggregator c6Pages 800 none c6Result (by decide) (by decide)

/-! ## _chunk (src/tools/slack_tools.py lines 253-255)

The comprehension `[text[i:i+chunk_size] for i in range(0, len(text), chunk_size)]`
over a character list, for a positive chunk size (Python raises ValueError
for step 0; the zero case here returns [] and is outside every claim). -/

/-- The recursion of _chunk, bounded by a fuel that starts at the text
length (each step consumes at least one character when the chunk size is
positive, so the fuel never runs out on the inputs the source uses). -/
def chunkAux (chunk_size : Nat) : Nat → List Char → List (List Char)
  | _, [] => []
  | 0, _ => []
  | fuel + 1, text => text.take chunk_size :: chunkAux chunk_size fuel (text.drop chunk_size)

def _chunk (text : List Char) (chunk_size : Nat) : List (List Char) :=
  chunkAux chunk_size text.length text

theorem chunkAux_fuel (c : Nat) (hc : 0 < c) :
    ∀ (fuel : Nat) (s : List Char), s.length ≤ fuel →
      chunkAux c fuel s = chunkAux c s.length s := by
  intro fuel
  induction fuel using Nat.strong_induction_on with
  | _ fuel ih =>
    intro s hs
    cases s with
    | nil => cases fuel <;> rfl
    | cons x xs =>
      cases fuel with
      | zero => simp at hs
      | succ f =>
        have hs2 : xs.length ≤ f := by simpa using hs
        have hdl : ((x :: xs).drop c).length ≤ f := by
          simp only [List.length_drop, List.length_cons]
          omega
        have hdl2 : ((x :: xs).drop c).length ≤ xs.length := by
          simp only [List.length_drop, List.length_cons]
          omega
        have h1 := ih f (Nat.lt_succ_self f) ((x :: xs).drop c) hdl
        have h2 := ih xs.length (by omega) ((x :: xs).drop c) hdl2
        simp only [chunkAux, List.length_cons]
        rw [h1, h2]

theorem _chunk_cons (c : Nat) (hc : 0 < c) (x : Char) (xs : List Char) :
    _chunk (x :: xs) c = (x :: xs).take c :: _chunk ((x :: xs).drop c) c := by
  have hdl2 : ((x :: xs).drop c).length ≤ xs.length := by
    simp only [List.length_drop, List.length_cons]
    omega
  unfold _chunk
  simp only [List.length_cons, chunkAux]
  rw [chunkAux_fuel c hc xs.length ((x :: xs).drop c) hdl2]

theorem chunk_join (c : Nat) (hc : 0 < c) (s : List Char) :
    (_chunk s c).flatten = s := by
  generalize hn : s.length = n
  induction n using Nat.strong_induction_on generalizing s with
  | _ n ih =>
    cases s with
    | nil => rfl
    | cons x xs =>
      rw [_chunk_cons c hc x xs, List.flatten_cons]
      have hlt : ((x :: xs).drop c).length < n := by
        simp only [List.length_drop, List.length_cons]
        simp only [List.length_cons] at hn
        omega
      rw [ih ((x :: xs).drop c).length hlt ((x :: xs).drop c) rfl,
        List.take_append_drop]

theorem chunk_sizes (c : Nat) (hc : 0 < c) (s : List Char) :
    ∀ ch ∈ _chunk s c, ch ≠ [] ∧ ch.length ≤ c := by
  generalize hn : s.length = n
  induction n using Nat.strong_induction_on generalizing s with
  | _ n ih =>
    cases s with
    | nil => simp [_chunk, chunkAux]
    | cons x xs =>
      rw [_chunk_cons c hc x xs]
      intro ch hch
      rcases List.mem_cons.mp hch with hhd | htl
      · subst hhd
        constructor
        · simp only [ne_eq, List.take_eq_nil_iff]
          push_neg
          exact ⟨Nat.pos_iff_ne_zero.mp hc, List.cons_ne_nil x xs⟩
        · rw [List.length_take]
          exact min_le_left _ _
      · have hlt : ((x :: xs).drop c).length < n := by
          simp only [List.length_drop, List.length_cons]
          simp only [List.length_cons] at hn
          omega
        exact ih ((x :: xs).drop c).length hlt ((x :: xs).drop c) rfl ch htl

/-- Claim C10: for every string and every positive chunk size, the chunks of
_chunk concatenate back to the input, every chunk is non-empty of length at
most the chunk size, and the empty string yields the empty chunk list. -/
theorem C10_chunk_spec (s : List Char) (c : Nat) (hc : 0 < c) :
    (_chunk s c).flatten = s
      ∧ (∀ ch ∈ _chunk s c, ch ≠ [] ∧ ch.length ≤ c)
      ∧ _chunk [] c = [] :=
  ⟨chunk_join c hc s, chunk_sizes c hc s, rfl⟩

theorem C10_witness :
    0 < 3
      ∧ ((_chunk ['a', 'b', 'c', 'd', 'e', 'f', 'g'] 3).flatten
            = ['a', 'b', 'c', 'd', 'e', 'f', 'g']
         ∧ (∀ ch ∈ _chunk ['a', 'b', 'c', 'd', 'e', 'f', 'g'] 3, ch ≠ [] ∧ ch.length ≤ 3)
         ∧ _chunk [] 3 = []) :=
  ⟨by decide, C10_chunk_spec ['a', 'b', 'c', 'd', 'e', 'f', 'g'] 3 (by decide)⟩

/-! ## summarize_channel_history (src/tools/slack_tools.py lines 257-356)

users_info is the oracle resolveName : user id → Option real-name (none
covers a not-ok response or an exception, both of which the source folds to
the id itself). -/

/-- _resolve_real_name_cache for one id (lines 206-220): the resolved real
name when the call succeeds, otherwise the id itself. -/
def resolveRealName (resolveName : String → Option String) (uid : String) : String :=
  (resolveName uid).getD uid

/-- The name_map built over the set of user ids collected from the filtered
messages (lines 299-306). -/
def buildNameMap (resolveName : String → Option String) (userIds : List String) :
    List (String × String) :=
  userIds.eraseDups.map (fun u => (u, resolveRealName resolveName u))

/-- name_map.get(uid, uid). -/
def lookupNameMap (mp : List (String × String)) (u : String) : String :=
  ((mp.find? (fun p => p.1 = u)).map Prod.snd).getD u

/-- One transcript line (lines 310-312); the strftime rendering of the ts
key is abstracted to its decimal rendering. -/
def transcriptLine (mp : List (String × String)) (m : SlackMsg) : String :=
  let label :=
    match uidOf m with
    | none => "Unknown"
    | some u => lookupNameMap mp u
  "[" ++ toString m.ts ++ "] " ++ label ++ ": " ++ String.mk (pyStrip m.text.toList)

/-- summarize_block (lines 322-329) evaluates
llm.invoke([HumanMessage(content=prompt)]), but neither llm nor HumanMessage
is defined or imported anywhere in src/tools/slack_tools.py (lines 1-7), so
its first evaluation raises NameError. -/
def summarize_block (_text_block : String) : Except String String :=
  Except.error "NameError: name llm is not defined"

/-- The list comprehension over chunk summaries (line 336): the first raising
element propagates its exception. -/
def collectParts : List (Except String String) → Except String (List String)
  | [] => Except.ok []
  | Except.error e :: _ => Except.error e
  | Except.ok s :: rest =>
    match collectParts rest with
    | Except.error e => Except.error e
    | Except.ok ss => Except.ok (s :: ss)

def partHeader (i : Nat) (p : String) : String :=
  "PART " ++ toString (i + 1) ++ " SUMMARY:\n" ++ p

/-- The focal-user suffix of the header (lines 341-351). -/
def headerSuffix (resolveName : String → Option String) (u : String) : String :=
  match resolveName u with
  | some rn => " (focused on " ++ rn ++ ")"
  | none => " (focused on <@" ++ u ++ ">)"

/-- summarize_channel_history (lines 257-356).  The lookback window only
shapes the page oracle; hours still appears in the header.  The outer
try/except turns any exception raised inside — including the NameError from
summarize_block — into the "Error summarizing channel history: ..." string. -/
def summarize_channel_history (resolveName : String → Option String)
    (pages : List PageResult) (channel_id : String) (hours : Nat)
    (user_id : Option String) (max_messages : Nat) : String :=
  match _iter_channel_messages pages max_messages with
  | FetchOutcome.raised e => "Error summarizing channel history: " ++ e
  | FetchOutcome.ok raw_msgs =>
    let filtered := filterEligible user_id raw_msgs
    if filtered.isEmpty then "No eligible messages in the specified window."
    else
      let userIds := filtered.filterMap (fun m =>
        match m.user with
        | some u => if u = "" then none else some u
        | none => none)
      let nameMap := buildNameMap resolveName userIds
      let transcript :=
        String.intercalate "\n" (filtered.map (transcriptLine nameMap))
      let chunks := (_chunk transcript.toList 5000).map String.mk
      let finalE :=
        if chunks.length = 1 then summarize_block (chunks.headD "")
        else
          match collectParts (chunks.map summarize_block) with
          | Except.error e => Except.error e
          | Except.ok partials =>
            let combined :=
              String.intercalate "\n\n" (partials.enum.map (fun p => partHeader p.1 p.2))
            summarize_block combined
      match finalE with
      | Except.error e => "Error summarizing channel history: " ++ e
      | Except.ok finalSummary =>
        let headerBase :=
          "Channel summary for <#" ++ channel_id ++ "> over the last "
            ++ toString hours ++ " hours"
        let header :=
          match user_id with
          | none => headerBase
          | some u => if u = "" then headerBase else headerBase ++ headerSuffix resolveName u
        "*" ++ header ++ "*\n\n" ++ finalSummary

/-- Claim C7: the claim is right and the code is wrong — with at least one
eligible message the source reaches summarize_block, whose body references
the undefined names llm and HumanMessage, so the call returns the
error-translation string instead of the header plus a final summary. -/
theorem C7_summarize_crashes :
    summarize_channel_history (fun _ => none)
        [PageResult.page [⟨100, "hello team", none, some "U1", none⟩] none]
        "C123" 24 none 800
      = "Error summarizing channel history: NameError: name llm is not defined" := by
  decide

/-! ## find_user_by_name (src/tools/slack_tools.py lines 59-120)

The channel roster pairs each member id with what users_info returns for
it: an ok profile, a not-ok response, or an exception (the latter two make
the loop skip the member, line 109-110).  Profile fields are optional to
model .get with defaults on the profile dict. -/

structure Profile where
  real_name : Option String
  display_name : Option String
  username : Option String
deriving Repr, DecidableEq

inductive MemberInfo
  | ok (p : Profile)
  | notOk
  | raisesErr
deriving Repr, DecidableEq

def lowerOpt (o : Option String) : List Char := pyLower (o.getD "").toList

/-- The match condition of lines 102-106: case-insensitive substring match
over real name, display name and handle, plus the (redundant) prefix
checks. -/
def profileMatches (q : List Char) (p : Profile) : Bool :=
  hasSub q (lowerOpt p.real_name) || hasSub q (lowerOpt p.display_name)
    || hasSub q (lowerOpt p.username)
    || q.isPrefixOf (lowerOpt p.real_name) || q.isPrefixOf (lowerOpt p.display_name)

/-- The candidate name recorded per member (line 99):
profile.get("real_name", username), whose default is the already lowercased
handle. -/
def candidateName (p : Profile) : String :=
  match p.real_name with
  | some r => r
  | none => String.mk (lowerOpt p.username)

/-- The member loop of lines 89-110: returns the first matching member id
(break) together with the accumulated candidate names. -/
def findLoop (q : List Char) : List (String × MemberInfo) → Option String × List String
  | [] => (none, [])
  | (uid, MemberInfo.ok p) :: rest =>
    let nm := candidateName p
    if profileMatches q p then (some uid, [nm])
    else
      let r := findLoop q rest
      (r.1, nm :: r.2)
  | (_, _) :: rest => findLoop q rest

/-- find_user_by_name (lines 59-120): name.lower().strip() is matched over
the roster; a match yields the mention token, otherwise the suggestion
message over the first 10 candidate names.  (The Python message wraps the
queried name in single quotes; the quotes are elided here.) -/
def find_user_by_name (name : String) (roster : List (String × MemberInfo)) : String :=
  if roster.isEmpty then "No members found in this channel."
  else
    let q := pyStrip (pyLower name.toList)
    match findLoop q roster with
    | (some uid, _) => "<@" ++ uid ++ ">"
    | (none, allNames) =>
      "Could not find user matching " ++ name
        ++ " in this channel. Available users include: "
        ++ String.intercalate ", " (allNames.take 10)

/-- Declarative first match over the roster, skipping members whose
users_info lookup failed. -/
def firstRosterMatch (q : List Char) : List (String × MemberInfo) → Option String
  | [] => none
  | (uid, MemberInfo.ok p) :: rest =>
    if profileMatches q p then some uid else firstRosterMatch q rest
  | (_, _) :: rest => firstRosterMatch q rest

/-- Candidate names of all members with an ok users_info lookup, in roster
order. -/
def rosterNames : List (String × MemberInfo) → List String
  | [] => []
  | (_, MemberInfo.ok p) :: rest => candidateName p :: rosterNames rest
  | (_, _) :: rest => rosterNames rest

theorem findLoop_fst (q : List Char) (roster : List (String × MemberInfo)) :
    (findLoop q roster).1 = firstRosterMatch q roster := by
  induction roster with
  | nil => rfl
  | cons entry rest ih =>
    obtain ⟨uid, info⟩ := entry
    cases info with
    | ok p =>
      simp only [findLoop, firstRosterMatch]
      by_cases hm : profileMatches q p
      · rw [if_pos hm, if_pos hm]
      · rw [if_neg hm, if_neg hm]
        exact ih
    | notOk => exact ih
    | raisesErr => exact ih

theorem findLoop_snd_of_no_match (q : List Char) (roster : List (String × MemberInfo))
    (h : firstRosterMatch q roster = none) :
    (findLoop q roster).2 = rosterNames roster := by
  induction roster with
  | nil => rfl
  | cons entry rest ih =>
    obtain ⟨uid, info⟩ := entry
    cases info with
    | ok p =>
      simp only [firstRosterMatch] at h
      by_cases hm : profileMatches q p
      · rw [if_pos hm] at h
        exact absurd h (by simp)
      · rw [if_neg hm] at h
        simp only [findLoop, rosterNames, if_neg hm]
        rw [ih h]
    | notOk => exact ih h
    | raisesErr => exact ih h

/-- Claim C8: on a non-empty roster, find_user_by_name matches the
case-insensitive lowered-and-stripped query over each ok member's real
name, display name and handle, returns the mention token of the first
matching member, and on no match returns the suggestion message listing at
most the first 10 candidate names. -/
theorem C8_find_user_by_name (name : String) (roster : List (String × MemberInfo))
    (hne : roster ≠ []) :
    (∀ uid, firstRosterMatch (pyStrip (pyLower name.toList)) roster = some uid →
        find_user_by_name name roster = "<@" ++ uid ++ ">")
      ∧ (firstRosterMatch (pyStrip (pyLower name.toList)) roster = none →
          find_user_by_name name roster
              = "Could not find user matching " ++ name
                  ++ " in this channel. Available users include: "
                  ++ String.intercalate ", " ((rosterNames roster).take 10)
            ∧ ((rosterNames roster).take 10).length ≤ 10) := by
  have hrne : roster.isEmpty = false := by
    cases roster with
    | nil => exact absurd rfl hne
    | cons a r => rfl
  constructor
  · intro uid hmatch
    unfold find_user_by_name
    rw [hrne]
    simp only [Bool.false_eq_true, if_false]
    have h1 := findLoop_fst (pyStrip (pyLower name.toList)) roster
    rw [hmatch] at h1
    cases hfl : findLoop (pyStrip (pyLower name.toList)) roster with
    | mk fst snd =>
      rw [hfl] at h1
      simp only at h1
      rw [h1]
  · intro hnone
    have h1 := findLoop_fst (pyStrip (pyLower name.toList)) roster
    rw [hnone] at h1
    have h2 := findLoop_snd_of_no_match (pyStrip (pyLower name.toList)) roster hnone
    constructor
    · unfold find_user_by_name
      rw [hrne]
      simp only [Bool.false_eq_true, if_false]
      cases hfl : findLoop (pyStrip (pyLower name.toList)) roster with
      | mk fst snd =>
        rw [hfl] at h1 h2
        simp only at h1 h2
        rw [h1, h2]
    · have := List.length_take 10 (rosterNames roster)
      omega

def danaRoster : List (String × MemberInfo) :=
  [("U11", MemberInfo.notOk),
   ("U77", MemberInfo.ok ⟨some "Dana Smith", some "dana", some "dsmith"⟩),
   ("U78", MemberInfo.ok ⟨some "Daniel Fox", some "dan", some "dfox"⟩)]

theorem C8_witness :
    find_user_by_name "dana" danaRoster = "<@" ++ "U77" ++ ">"
      ∧ (find_user_by_name "zzz" danaRoster
          = "Could not find user matching " ++ "zzz"
              ++ " in this channel. Available users include: "
              ++ String.intercalate ", " ((rosterNames danaRoster).take 10)
        ∧ ((rosterNames danaRoster).take 10).length ≤ 10) :=
  ⟨(C8_find_user_by_name "dana" danaRoster (by decide)).1 "U77" (by decide),
   (C8_find_user_by_name "zzz" danaRoster (by decide)).2 (by decide)⟩

/-! ## load_system_prompt and set_prompt (src/agent.py lines 62-72 and 249-260)

The prompts directory is modelled as an association list from prompt name
to file content; a missing entry raises FileNotFoundError.  The two module
globals CURRENT_PROMPT_NAME and USE_CLASSIFICATION form the configuration
state; set_prompt returns the post-state together with the raised error, if
any. -/

structure AgentConfig where
  current_prompt_name : String
  use_classification : Bool
deriving Repr, DecidableEq

/-- load_system_prompt: return the file content or raise FileNotFoundError
naming the path. -/
def load_system_prompt (promptFiles : List (String × String)) (prompt_name : String) :
    Except String String :=
  match promptFiles.find? (fun p => p.1 = prompt_name) with
  | none => Except.error ("Prompt file not found: prompts/" ++ prompt_name ++ ".txt")
  | some p => Except.ok p.2

/-- set_prompt: verify the prompt file exists (this raises before either
global is assigned), then set CURRENT_PROMPT_NAME and clear
USE_CLASSIFICATION.  Returns (post-state, raised error). -/
def set_prompt (promptFiles : List (String × String)) (cfg : AgentConfig)
    (prompt_name : String) : AgentConfig × Option String :=
  match load_system_prompt promptFiles prompt_name with
  | Except.error e => (cfg, some e)
  | Except.ok _ => (⟨prompt_name, false⟩, none)

/-- Claim C9: when the named prompt file exists, set_prompt installs it as
the active prompt and disables automatic classification; when it is
missing, set_prompt raises and leaves both configuration globals exactly as
they were — the administrative action aborts atomically. -/
theorem C9_set_prompt_atomic (promptFiles : List (String × String)) (cfg : AgentConfig)
    (prompt_name : String) :
    ((∃ c, promptFiles.find? (fun p => p.1 = prompt_name) = some c) →
        set_prompt promptFiles cfg prompt_name = (⟨prompt_name, false⟩, none))
      ∧ (promptFiles.find? (fun p => p.1 = prompt_name) = none →
          set_prompt promptFiles cfg prompt_name
            = (cfg, some ("Prompt file not found: prompts/" ++ prompt_name ++ ".txt"))) := by
  constructor
  · rintro ⟨c, hc⟩
    simp [set_prompt, load_system_prompt, hc]
  · intro hnone
    simp [set_prompt, load_system_prompt, hnone]

theorem C9_witness :
    set_prompt [("prompt2", "terse style")] ⟨"conflict_analyst_prompt", true⟩ "prompt2"
        = (⟨"prompt2", false⟩, none)
      ∧ set_prompt [("prompt2", "terse style")] ⟨"conflict_analyst_prompt", true⟩ "missing_one"
          = (⟨"conflict_analyst_prompt", true⟩,
             some ("Prompt file not found: prompts/" ++ "missing_one" ++ ".txt")) :=
  ⟨(C9_set_prompt_atomic [("prompt2", "terse style")] ⟨"conflict_analyst_prompt", true⟩
      "prompt2").1 ⟨("prompt2", "terse style"), by decide⟩,
   (C9_set_prompt_atomic [("prompt2", "terse style")] ⟨"conflict_analyst_prompt", true⟩
      "missing_one").2 (by decide)⟩

end BtwUS
